import Mathlib

/-!
Verification of the XIVE interrupt controller model (hw/ppc/pnv.c, XIVE part).

The C code is embedded shallowly: machine integers are `Nat` with explicit
masking where the C truncates, byte arrays are functions `Nat → Nat`, and the
pluggable router storage (get/set of IVE/EQ/VP) is passed explicitly.
Constants that live in the missing headers (xive.h / xive_regs.h) are modelled
from the spec and marked as such.
-/

/-! ## ESB state machine (xive_esb_set / xive_esb_trigger / xive_esb_eoi) -/

/-- Modelled from the spec: the 2-bit ESB state encodings `RESET(00)`,
`OFF(01)`, `PENDING(10)`, `QUEUED(11)` (the `XIVE_ESB_*` constants come from
the missing xive.h header). -/
def XIVE_ESB_RESET : Nat := 0

/-- Modelled from the spec: ESB state OFF = 0b01. -/
def XIVE_ESB_OFF : Nat := 1

/-- Modelled from the spec: ESB state PENDING = 0b10. -/
def XIVE_ESB_PENDING : Nat := 2

/-- Modelled from the spec: ESB state QUEUED = 0b11. -/
def XIVE_ESB_QUEUED : Nat := 3

/-- `xive_esb_set`: overwrite the low two bits of the ESB byte, return the old
2-bit value together with the new byte (the C works through a pointer). -/
def xive_esb_set (pq v : Nat) : Nat × Nat :=
  (pq &&& 0x3, (pq &&& 0xFC) ||| (v &&& 0x3))

/-- `xive_esb_trigger`: returns (forward?, new byte).  The C `default` branch
is unreachable because `old_pq < 4`; the final branch here is the OFF case. -/
def xive_esb_trigger (pq : Nat) : Bool × Nat :=
  let old_pq := pq &&& 0x3
  if old_pq = XIVE_ESB_RESET then
    (true, (xive_esb_set pq XIVE_ESB_PENDING).2)
  else if old_pq = XIVE_ESB_PENDING ∨ old_pq = XIVE_ESB_QUEUED then
    (false, (xive_esb_set pq XIVE_ESB_QUEUED).2)
  else
    (false, (xive_esb_set pq XIVE_ESB_OFF).2)

/-- `xive_esb_eoi`: returns (forward?, new byte). -/
def xive_esb_eoi (pq : Nat) : Bool × Nat :=
  let old_pq := pq &&& 0x3
  if old_pq = XIVE_ESB_RESET ∨ old_pq = XIVE_ESB_PENDING then
    (false, (xive_esb_set pq XIVE_ESB_RESET).2)
  else if old_pq = XIVE_ESB_QUEUED then
    (true, (xive_esb_set pq XIVE_ESB_PENDING).2)
  else
    (false, (xive_esb_set pq XIVE_ESB_OFF).2)

/-! ## Thread interrupt management context (TCTX) -/

/-- Modelled from the spec: the TIMA is four 4KB pages, so the page index of
an offset is `(offset >> 12) & 3` (`TM_SHIFT` comes from the missing
xive_regs.h header). -/
def TM_SHIFT : Nat := 12

/-- Modelled from the spec: ring base offsets of the four 16-byte rings. -/
def TM_QW0_USER : Nat := 0x0

/-- Modelled from the spec: OS ring base offset. -/
def TM_QW1_OS : Nat := 0x10

/-- Modelled from the spec: HV pool ring base offset. -/
def TM_QW2_HV_POOL : Nat := 0x20

/-- Modelled from the spec: HV physical ring base offset. -/
def TM_QW3_HV_PHYS : Nat := 0x30

/-- Modelled from the spec: per-ring register byte offsets, in the order the
spec lists them (NSR, CPPR, IPB, LSMFB, ACK_CNT, INC, AGE, PIPR, WORD2). -/
def TM_NSR : Nat := 0x0

/-- Modelled from the spec: CPPR byte offset. -/
def TM_CPPR : Nat := 0x1

/-- Modelled from the spec: IPB byte offset. -/
def TM_IPB : Nat := 0x2

/-- Modelled from the spec: LSMFB byte offset. -/
def TM_LSMFB : Nat := 0x3

/-- Modelled from the spec: ACK_CNT byte offset. -/
def TM_ACK_CNT : Nat := 0x4

/-- Modelled from the spec: INC byte offset. -/
def TM_INC : Nat := 0x5

/-- Modelled from the spec: AGE byte offset. -/
def TM_AGE : Nat := 0x6

/-- Modelled from the spec: PIPR byte offset. -/
def TM_PIPR : Nat := 0x7

/-- Modelled from the spec: WORD2 (CAM line) offset inside a ring. -/
def TM_WORD2 : Nat := 0x8

/-- Modelled from the spec: the `EO` (exception outstanding) bit of the OS
ring NSR byte; spec scenario 4 shows `old_NSR = 0x80` for a raised OS
exception. -/
def TM_QW1_NSR_EO : Nat := 0x80

/-- Modelled from the spec: priorities run 0..7 (IPB has one bit per
priority). -/
def XIVE_PRIORITY_MAX : Nat := 7

/-- Count of leading zeros of a 32-bit value (the C `clz32`): 32 minus the
bit length, the bit length being the number of `k < 32` with `2^k ≤ val`. -/
def clz32 (val : Nat) : Nat :=
  32 - (List.range 32).countP (fun k => decide (2 ^ k ≤ val))

/-- `priority_to_ipb`: convert a priority number to an IPB bit. -/
def priority_to_ipb (priority : Nat) : Nat :=
  if priority > XIVE_PRIORITY_MAX then 0
  else 1 <<< (XIVE_PRIORITY_MAX - priority)

/-- `ipb_to_pipr`: priority of the most favored (most significant) bit set in
the IPB byte, or 0xFF when the IPB is zero. -/
def ipb_to_pipr (ibp : Nat) : Nat :=
  if ibp = 0 then 0xff else clz32 (ibp <<< 24)

/-- Pointwise update of a byte array represented as a function. -/
def upd (f : Nat → Nat) (i v : Nat) : Nat → Nat :=
  fun j => if j = i then v else f j

/-- `ipb_update(regs, priority)`: the C receives a pointer to a ring base;
here `base` is the ring base offset inside the 64-byte register file. -/
def ipb_update (regs : Nat → Nat) (base priority : Nat) : Nat → Nat :=
  let regs1 := upd regs (base + TM_IPB) (regs (base + TM_IPB) ||| priority_to_ipb priority)
  upd regs1 (base + TM_PIPR) (ipb_to_pipr (regs1 (base + TM_IPB)))

/-- The thread context: the 64-byte register file, the output line level, and
the CPU PIR register value (used by `xive_tctx_hw_cam`). -/
structure XiveTCTX where
  regs : Nat → Nat
  out : Bool
  pir : Nat

/-- `exception_mask`: defined for the OS ring only; the C hits
`g_assert_not_reached()` for any other ring, modelled as `none`. -/
def exception_mask (ring : Nat) : Option Nat :=
  if ring = TM_QW1_OS then some TM_QW1_NSR_EO else none

/-- `xive_tctx_accept`: returns `(ack value, new context)`, or `none` when the
ring has no exception mask (C assertion).  The C `&= ~x` operations are on
`uint8_t`, hence the `&&& (0xff ^^^ x)` byte-complement. -/
def xive_tctx_accept (tctx : XiveTCTX) (ring : Nat) : Option (Nat × XiveTCTX) :=
  match exception_mask ring with
  | none => none
  | some mask =>
    let nsr := tctx.regs (ring + TM_NSR)
    let tctx1 : XiveTCTX := { tctx with out := false }
    if nsr &&& mask ≠ 0 then
      let cppr := tctx1.regs (ring + TM_PIPR)
      let r1 := upd tctx1.regs (ring + TM_CPPR) cppr
      let r2 := upd r1 (ring + TM_IPB) (r1 (ring + TM_IPB) &&& (0xff ^^^ priority_to_ipb cppr))
      let r3 := upd r2 (ring + TM_PIPR) (ipb_to_pipr (r2 (ring + TM_IPB)))
      let r4 := upd r3 (ring + TM_NSR) (r3 (ring + TM_NSR) &&& (0xff ^^^ mask))
      some ((nsr <<< 8) ||| r4 (ring + TM_CPPR), { tctx1 with regs := r4 })
    else
      some ((nsr <<< 8) ||| tctx1.regs (ring + TM_CPPR), tctx1)

/-- `xive_tctx_notify`: raise the exception bit and the output line when
`PIPR < CPPR`; `none` models the C assertion for rings without an exception
mask. -/
def xive_tctx_notify (tctx : XiveTCTX) (ring : Nat) : Option XiveTCTX :=
  if tctx.regs (ring + TM_PIPR) < tctx.regs (ring + TM_CPPR) then
    match exception_mask ring with
    | none => none
    | some mask =>
      some { tctx with
              regs := upd tctx.regs (ring + TM_NSR) (tctx.regs (ring + TM_NSR) ||| mask),
              out := true }
  else
    some tctx

/-- `xive_tctx_set_cppr`. -/
def xive_tctx_set_cppr (tctx : XiveTCTX) (ring cppr0 : Nat) : Option XiveTCTX :=
  let cppr := if cppr0 > XIVE_PRIORITY_MAX then 0xff else cppr0
  xive_tctx_notify { tctx with regs := upd tctx.regs (ring + TM_CPPR) cppr } ring

/-! ## TIMA access maps and raw accesses -/

/-- Modelled from the spec: the four TIMA page indices. -/
def XIVE_TM_HW_PAGE : Nat := 0x0

/-- Modelled from the spec: HV page index. -/
def XIVE_TM_HV_PAGE : Nat := 0x1

/-- Modelled from the spec: OS page index. -/
def XIVE_TM_OS_PAGE : Nat := 0x2

/-- Modelled from the spec: USER page index. -/
def XIVE_TM_USER_PAGE : Nat := 0x3

/-- `xive_tm_hw_view` access map (0 none, 1 write-only, 2 read-only, 3 rw). -/
def xive_tm_hw_view : List Nat :=
  [3, 0, 0, 0,   0, 0, 0, 0,   3, 3, 3, 3,   0, 0, 0, 0,
   3, 3, 3, 3,   3, 3, 0, 3,   3, 3, 3, 3,   0, 0, 0, 0,
   0, 0, 3, 3,   0, 0, 0, 0,   3, 3, 3, 3,   0, 0, 0, 0,
   3, 3, 3, 3,   0, 3, 0, 3,   3, 0, 0, 3,   3, 3, 3, 0]

/-- `xive_tm_hv_view` access map. -/
def xive_tm_hv_view : List Nat :=
  [3, 0, 0, 0,   0, 0, 0, 0,   3, 3, 3, 3,   0, 0, 0, 0,
   3, 3, 3, 3,   3, 3, 0, 3,   3, 3, 3, 3,   0, 0, 0, 0,
   0, 0, 3, 3,   0, 0, 0, 0,   0, 3, 3, 3,   0, 0, 0, 0,
   3, 3, 3, 3,   0, 3, 0, 3,   3, 0, 0, 3,   0, 0, 0, 0]

/-- `xive_tm_os_view` access map. -/
def xive_tm_os_view : List Nat :=
  [3, 0, 0, 0,   0, 0, 0, 0,   3, 3, 3, 3,   0, 0, 0, 0,
   2, 3, 2, 2,   2, 2, 0, 2,   0, 0, 0, 0,   0, 0, 0, 0,
   0, 0, 0, 0,   0, 0, 0, 0,   0, 0, 0, 0,   0, 0, 0, 0,
   0, 0, 0, 0,   0, 0, 0, 0,   0, 0, 0, 0,   0, 3, 3, 0]

/-- `xive_tm_user_view` access map. -/
def xive_tm_user_view : List Nat :=
  [3, 0, 0, 0,   0, 0, 0, 0,   0, 0, 0, 0,   0, 0, 0, 0,
   0, 0, 0, 0,   0, 0, 0, 0,   0, 0, 0, 0,   0, 0, 0, 0,
   0, 0, 0, 0,   0, 0, 0, 0,   0, 0, 0, 0,   0, 0, 0, 0,
   0, 0, 0, 0,   0, 0, 0, 0,   0, 0, 0, 0,   0, 0, 0, 0]

/-- `xive_tm_views`, indexed by page number. -/
def xive_tm_views (page : Nat) : List Nat :=
  if page = XIVE_TM_HW_PAGE then xive_tm_hw_view
  else if page = XIVE_TM_HV_PAGE then xive_tm_hv_view
  else if page = XIVE_TM_OS_PAGE then xive_tm_os_view
  else xive_tm_user_view

/-- `xive_tm_mask`: register access mask for an offset/size/direction. -/
def xive_tm_mask (offset size : Nat) (write : Bool) : Nat :=
  let page_offset := (offset >>> TM_SHIFT) &&& 0x3
  let reg_offset := offset &&& 0x3F
  let reg_mask := if write then 0x1 else 0x2
  (List.range size).foldl
    (fun mask i =>
      if (xive_tm_views page_offset).getD (reg_offset + i) 0 &&& reg_mask ≠ 0 then
        mask ||| (0xff <<< (8 * (size - i - 1)))
      else mask)
    0

/-- `xive_tm_raw_write`: rejected accesses leave the context unchanged (the C
logs a guest error and returns).  The C's `uint8_t byte_mask` truncation is
the `&&& 0xff`. -/
def xive_tm_raw_write (tctx : XiveTCTX) (offset value size : Nat) : XiveTCTX :=
  let ring_offset := offset &&& 0x30
  let reg_offset := offset &&& 0x3F
  let mask := xive_tm_mask offset size true
  if size < 4 ∨ mask = 0 ∨ ring_offset = TM_QW0_USER then tctx
  else
    { tctx with
      regs := (List.range size).foldl
        (fun r i =>
          let byte_mask := (mask >>> (8 * (size - i - 1))) &&& 0xff
          if byte_mask ≠ 0 then
            upd r (reg_offset + i) ((value >>> (8 * (size - i - 1))) &&& byte_mask)
          else r)
        tctx.regs }

/-- `xive_tm_raw_read`: rejected accesses return `(uint64_t)-1`. -/
def xive_tm_raw_read (tctx : XiveTCTX) (offset size : Nat) : Nat :=
  let ring_offset := offset &&& 0x30
  let reg_offset := offset &&& 0x3F
  let mask := xive_tm_mask offset size false
  if size < 4 ∨ mask = 0 ∨ ring_offset = TM_QW0_USER then 0xFFFFFFFFFFFFFFFF
  else
    ((List.range size).foldl
      (fun ret i => ret ||| (tctx.regs (reg_offset + i) <<< (8 * (size - i - 1))))
      0) &&& mask

/-- Modelled from the spec: a permitted raw read returns the register bytes
masked byte-by-byte by the read-access map of the accessing page (bytes whose
map entry has no read permission are zeroed). -/
def xive_tm_filtered_read (tctx : XiveTCTX) (offset size : Nat) : Nat :=
  let page_offset := (offset >>> TM_SHIFT) &&& 0x3
  let reg_offset := offset &&& 0x3F
  (List.range size).foldl
    (fun ret i =>
      if (xive_tm_views page_offset).getD (reg_offset + i) 0 &&& 0x2 ≠ 0 then
        ret ||| (tctx.regs (reg_offset + i) <<< (8 * (size - i - 1)))
      else ret)
    0

/-! ## TIMA special operations -/

/-- Modelled from the spec: op offset of the 2-byte ACK_OS_REG load (bit 11
set selects the special region). -/
def TM_SPC_ACK_OS_REG : Nat := 0x830

/-- Modelled from the spec: op offset of the 1-byte SET_OS_PENDING store. -/
def TM_SPC_SET_OS_PENDING : Nat := 0x812

/-- Tags naming the three registered TIMA operation handlers. -/
inductive XiveTmHandler where
  | set_os_cppr
  | ack_os_reg
  | set_os_pending
deriving DecidableEq

/-- One row of the `xive_tm_operations` table; handlers are identified by
tag, `none` models a NULL handler pointer. -/
structure XiveTmOp where
  page_offset : Nat
  op_offset : Nat
  size : Nat
  write_handler : Option XiveTmHandler
  read_handler : Option XiveTmHandler
deriving DecidableEq

/-- `xive_tm_operations` dispatch table. -/
def xive_tm_operations : List XiveTmOp :=
  [⟨XIVE_TM_OS_PAGE, TM_QW1_OS + TM_CPPR, 1, some .set_os_cppr, none⟩,
   ⟨XIVE_TM_OS_PAGE, TM_SPC_ACK_OS_REG, 2, none, some .ack_os_reg⟩,
   ⟨XIVE_TM_OS_PAGE, TM_SPC_SET_OS_PENDING, 1, some .set_os_pending, none⟩]

/-- `xive_tm_find_op`: linear search of the operations table; the privilege
check is `xto->page_offset >= page_offset` in the C. -/
def xive_tm_find_op (offset size : Nat) (write : Bool) : Option XiveTmOp :=
  let page_offset := (offset >>> TM_SHIFT) &&& 0x3
  let op_offset := offset &&& 0xFFF
  xive_tm_operations.find? (fun xto =>
    decide (page_offset ≤ xto.page_offset) &&
    decide (xto.op_offset = op_offset) &&
    decide (xto.size = size) &&
    (if write then xto.write_handler.isSome else xto.read_handler.isSome))

/-- `xive_tm_ack_os_reg` handler. -/
def xive_tm_ack_os_reg (tctx : XiveTCTX) : Option (Nat × XiveTCTX) :=
  xive_tctx_accept tctx TM_QW1_OS

/-- `xive_tm_set_os_cppr` handler. -/
def xive_tm_set_os_cppr (tctx : XiveTCTX) (value : Nat) : Option XiveTCTX :=
  xive_tctx_set_cppr tctx TM_QW1_OS (value &&& 0xff)

/-- `xive_tm_set_os_pending` handler. -/
def xive_tm_set_os_pending (tctx : XiveTCTX) (value : Nat) : Option XiveTCTX :=
  xive_tctx_notify
    { tctx with regs := ipb_update tctx.regs TM_QW1_OS (value &&& 0xff) }
    TM_QW1_OS

/-! ## TCTX reset -/

/-- Big-endian byte list of a 32-bit value (`cpu_to_be32` as stored in guest
visible byte order). -/
def cpu_to_be32 (v : Nat) : List Nat :=
  [(v >>> 24) &&& 0xff, (v >>> 16) &&& 0xff, (v >>> 8) &&& 0xff, v &&& 0xff]

/-- Big-endian read of 4 consecutive register bytes (`be32_to_cpu` of a
register pointer). -/
def be32_read (regs : Nat → Nat) (i : Nat) : Nat :=
  (regs i <<< 24) ||| (regs (i + 1) <<< 16) ||| (regs (i + 2) <<< 8) ||| regs (i + 3)

/-- Modelled from the spec: the OS CAM valid bit `VO` (top bit of WORD2). -/
def TM_QW1W2_VO : Nat := 0x80000000

/-- `tctx_cam_line`. -/
def tctx_cam_line (vp_blk vp_idx : Nat) : Nat :=
  (vp_blk <<< 19) ||| vp_idx

/-- `tctx_hw_cam_line`: the hardwired 23-bit HW CAM value. -/
def tctx_hw_cam_line (block_group : Bool) (chip_id tid : Nat) : Nat :=
  if block_group then
    (1 <<< 11) ||| ((chip_id &&& 0xf) <<< 7) ||| (tid &&& 0x7f)
  else
    ((chip_id &&& 0xf) <<< 11) ||| (1 <<< 7) ||| (tid &&& 0x7f)

/-- `xive_tctx_hw_cam`: derived from the CPU PIR register. -/
def xive_tctx_hw_cam (tctx : XiveTCTX) (block_group : Bool) : Nat :=
  tctx_hw_cam_line block_group ((tctx.pir >>> 8) &&& 0xf) (tctx.pir &&& 0x7f)

/-- `xive_tctx_reset`: zero the register file, seed the OS-ring defaults, seed
the OS-ring PIPR from the (zero) IPB, and push the OS CAM when not running
hypervisor mode. -/
def xive_tctx_reset (tctx : XiveTCTX) (chip_id vcpu_id : Nat) (msr_hv : Bool) : XiveTCTX :=
  let regs0 : Nat → Nat := fun _ => 0
  let r1 := upd regs0 (TM_QW1_OS + TM_LSMFB) 0xFF
  let r2 := upd r1 (TM_QW1_OS + TM_ACK_CNT) 0xFF
  let r3 := upd r2 (TM_QW1_OS + TM_AGE) 0xFF
  let r4 := upd r3 (TM_QW1_OS + TM_PIPR) (ipb_to_pipr (r3 (TM_QW1_OS + TM_IPB)))
  let r5 :=
    if msr_hv then r4
    else
      let bs := cpu_to_be32 (TM_QW1W2_VO ||| tctx_cam_line chip_id vcpu_id)
      upd (upd (upd (upd r4
        (TM_QW1_OS + TM_WORD2) (bs.getD 0 0))
        (TM_QW1_OS + TM_WORD2 + 1) (bs.getD 1 0))
        (TM_QW1_OS + TM_WORD2 + 2) (bs.getD 2 0))
        (TM_QW1_OS + TM_WORD2 + 3) (bs.getD 3 0)
  { tctx with regs := r5 }

/-! ## Event queue (EQ) descriptors and the router -/

/-- A bit field inside a 32-bit descriptor word, given by its low bit position
and width. -/
structure BitField where
  shift : Nat
  width : Nat

/-- Modelled from the spec: the C `GETFIELD(mask, word)` macro from the
missing xive_regs.h header — extract the field value. -/
def GETFIELD (f : BitField) (word : Nat) : Nat :=
  (word >>> f.shift) % 2 ^ f.width

/-- Modelled from the spec: the C `SETFIELD(mask, word, v)` macro — replace
the field value, leaving the other bits alone (arithmetic form of the mask
operation). -/
def SETFIELD (f : BitField) (word v : Nat) : Nat :=
  word % 2 ^ f.shift + (v % 2 ^ f.width) * 2 ^ f.shift +
    word / 2 ^ (f.shift + f.width) * 2 ^ (f.shift + f.width)

/-- Modelled from the spec: `w0.VALID` (top bit of w0). -/
def EQ_W0_VALID : Nat := 0x80000000

/-- Modelled from the spec: `w0.ENQUEUE`. -/
def EQ_W0_ENQUEUE : Nat := 0x04000000

/-- Modelled from the spec: `w0.UCOND_NOTIFY`. -/
def EQ_W0_UCOND_NOTIFY : Nat := 0x02000000

/-- Modelled from the spec: `w0.QSIZE` (3 bits, queue length
`2^(QSIZE+10)`). -/
def EQ_W0_QSIZE : BitField := ⟨0, 3⟩

/-- Modelled from the spec: the `w1` generation bit. -/
def EQ_W1_GENERATION : BitField := ⟨22, 1⟩

/-- Modelled from the spec: the `w1` queue index (`PAGE_OFF`). -/
def EQ_W1_PAGE_OFF : BitField := ⟨0, 22⟩

/-- Modelled from the spec: the 2-bit `ESn` ESB pair embedded in `w1`. -/
def EQ_W1_ESn : BitField := ⟨30, 2⟩

/-- Modelled from the spec: the 2-bit `ESe` ESB pair embedded in `w1`. -/
def EQ_W1_ESe : BitField := ⟨28, 2⟩

/-- Modelled from the spec: the `w6` format bit. -/
def EQ_W6_FORMAT_BIT : BitField := ⟨23, 1⟩

/-- Modelled from the spec: the `w6` NVT (VP) block. -/
def EQ_W6_NVT_BLOCK : BitField := ⟨19, 4⟩

/-- Modelled from the spec: the `w6` NVT (VP) index. -/
def EQ_W6_NVT_INDEX : BitField := ⟨0, 19⟩

/-- Modelled from the spec: the `w7` format-0 ignore bit. -/
def EQ_W7_F0_IGNORE : BitField := ⟨31, 1⟩

/-- Modelled from the spec: the `w7` format-0 priority byte. -/
def EQ_W7_F0_PRIORITY : BitField := ⟨16, 8⟩

/-- Modelled from the spec: the `w7` format-1 logical server id. -/
def EQ_W7_F1_LOG_SERVER_ID : BitField := ⟨0, 28⟩

/-- The EQ descriptor: eight 32-bit words. -/
structure XiveEQ where
  w0 : Nat
  w1 : Nat
  w2 : Nat
  w3 : Nat
  w4 : Nat
  w5 : Nat
  w6 : Nat
  w7 : Nat
deriving DecidableEq

/-- `xive_eq_push`: the DMA channel is abstracted by the success oracle
`dmaOk`; the result is the updated descriptor together with the performed
write `(guest address, big-endian bytes)`, `none` when the DMA write failed
(in which case the descriptor is returned unchanged, as in the C). -/
def xive_eq_push (dmaOk : Nat → Bool) (eq : XiveEQ) (data : Nat) :
    XiveEQ × Option (Nat × List Nat) :=
  let qaddr_base := ((eq.w2 &&& 0x0fffffff) <<< 32) ||| eq.w3
  let qsize := GETFIELD EQ_W0_QSIZE eq.w0
  let qindex := GETFIELD EQ_W1_PAGE_OFF eq.w1
  let qgen := GETFIELD EQ_W1_GENERATION eq.w1
  let qaddr := qaddr_base + (qindex <<< 2)
  let qdata := cpu_to_be32 ((qgen <<< 31) ||| (data &&& 0x7fffffff))
  let qentries := 1 <<< (qsize + 10)
  if dmaOk qaddr = false then (eq, none)
  else
    let qindex' := (qindex + 1) % qentries
    let w1' := if qindex' = 0 then SETFIELD EQ_W1_GENERATION eq.w1 (qgen ^^^ 1) else eq.w1
    ({ eq with w1 := SETFIELD EQ_W1_PAGE_OFF w1' qindex' }, some (qaddr, qdata))

/-- Iterated pushes through an always-succeeding DMA channel. -/
def xive_eq_pushN (eq : XiveEQ) (data : Nat) : Nat → XiveEQ
  | 0 => eq
  | k + 1 => (xive_eq_push (fun _ => true) (xive_eq_pushN eq data k) data).1

/-- Observable outcome of `xive_router_eq_notify`: the descriptors persisted
via `set_eq` in order, the DMA write performed, and the parameters passed on
to the presenter (`none` when the notification stops earlier). -/
structure EqNotifyOut where
  setEqCalls : List XiveEQ
  write : Option (Nat × List Nat)
  presented : Option (Nat × Nat × Nat × Nat × Nat × Nat)
deriving DecidableEq

/-- `xive_router_eq_notify`: `geteq` is the result of the subclass `get_eq`
lookup (`none` models a lookup failure). -/
def xive_router_eq_notify (geteq : Option XiveEQ) (dmaOk : Nat → Bool)
    (eq_data : Nat) : EqNotifyOut :=
  match geteq with
  | none => ⟨[], none, none⟩
  | some eq0 =>
    if eq0.w0 &&& EQ_W0_VALID = 0 then ⟨[], none, none⟩
    else
      let pushed :=
        if eq0.w0 &&& EQ_W0_ENQUEUE ≠ 0 then
          let p := xive_eq_push dmaOk eq0 eq_data
          (p.1, p.2, [p.1])
        else (eq0, none, [])
      let eq1 := pushed.1
      let wr := pushed.2.1
      let calls1 := pushed.2.2
      let format := GETFIELD EQ_W6_FORMAT_BIT eq1.w6
      let priority := GETFIELD EQ_W7_F0_PRIORITY eq1.w7
      if format = 0 ∧ priority = 0xff then ⟨calls1, wr, none⟩
      else
        if eq1.w0 &&& EQ_W0_UCOND_NOTIFY = 0 then
          let pq := GETFIELD EQ_W1_ESn eq1.w1
          let t := xive_esb_trigger pq
          let step :=
            if t.2 ≠ GETFIELD EQ_W1_ESn eq1.w1 then
              let e := { eq1 with w1 := SETFIELD EQ_W1_ESn eq1.w1 t.2 }
              (e, calls1 ++ [e])
            else (eq1, calls1)
          if t.1 = false then ⟨step.2, wr, none⟩
          else
            ⟨step.2, wr, some (format, GETFIELD EQ_W6_NVT_BLOCK step.1.w6,
              GETFIELD EQ_W6_NVT_INDEX step.1.w6, GETFIELD EQ_W7_F0_IGNORE step.1.w7,
              priority, GETFIELD EQ_W7_F1_LOG_SERVER_ID step.1.w7)⟩
        else
          ⟨calls1, wr, some (format, GETFIELD EQ_W6_NVT_BLOCK eq1.w6,
            GETFIELD EQ_W6_NVT_INDEX eq1.w6, GETFIELD EQ_W7_F0_IGNORE eq1.w7,
            priority, GETFIELD EQ_W7_F1_LOG_SERVER_ID eq1.w7)⟩

/-! ## Virtual processor descriptors and the presenter -/

/-- Modelled from the spec: `vp.w0.VALID`. -/
def VP_W0_VALID : Nat := 0x80000000

/-- The VP descriptor: the valid word `w0` and a byte view `w4` of the
backlog area starting at the C `w4` word (in the C, `ipb_update` is applied
to `(uint8_t *)&vp.w4`, so its PIPR store at byte offset 7 lands past the
4-byte `w4` word itself). -/
structure XiveVP where
  w0 : Nat
  w4 : Nat → Nat

/-- Modelled from the spec: the `VT` valid bit of the HV physical ring CAM
word. -/
def TM_QW3W2_VT : Nat := 0x80000000

/-- Modelled from the spec: the `VP` valid bit of the HV pool ring CAM
word. -/
def TM_QW2W2_VP : Nat := 0x80000000

/-- Modelled from the spec: the `VU` valid bit of the user ring CAM word. -/
def TM_QW0W2_VU : Nat := 0x80000000

/-- Modelled from the spec: the 23-bit pool CAM field. -/
def TM_QW2W2_POOL_CAM : BitField := ⟨0, 23⟩

/-- Modelled from the spec: the 23-bit OS CAM field. -/
def TM_QW1W2_OS_CAM : BitField := ⟨0, 23⟩

/-- Modelled from the spec: the logical server field of the user ring CAM
word. -/
def TM_QW0W2_LOGIC_SERV : BitField := ⟨0, 31⟩

/-- `xive_tctx_ring_match`: compare one ring's CAM line against the target.
The C `default` case asserts; it is unreachable from the caller, modelled as
`false`.  Note the C checks the user ring's own WORD2 against the OS CAM
masks. -/
def xive_tctx_ring_match (tctx : XiveTCTX) (ring vp_blk vp_idx : Nat)
    (cam_ignore : Bool) (logic_serv : Nat) : Bool :=
  let w2 := be32_read tctx.regs (ring + TM_WORD2)
  let cam := tctx_cam_line vp_blk vp_idx
  let block_group := false
  if ring = TM_QW3_HV_PHYS then
    decide (w2 &&& TM_QW3W2_VT ≠ 0) &&
    decide (xive_tctx_hw_cam tctx block_group =
      tctx_hw_cam_line block_group vp_blk vp_idx)
  else if ring = TM_QW2_HV_POOL then
    decide (w2 &&& TM_QW2W2_VP ≠ 0) && decide (cam = GETFIELD TM_QW2W2_POOL_CAM w2)
  else if ring = TM_QW1_OS then
    decide (w2 &&& TM_QW1W2_VO ≠ 0) && decide (cam = GETFIELD TM_QW1W2_OS_CAM w2)
  else if ring = TM_QW0_USER then
    decide (w2 &&& TM_QW1W2_VO ≠ 0) && decide (cam = GETFIELD TM_QW1W2_OS_CAM w2) &&
    decide (w2 &&& TM_QW0W2_VU ≠ 0) && decide (logic_serv = GETFIELD TM_QW0W2_LOGIC_SERV w2)
  else false

/-- `xive_presenter_tctx_match`: `some ring` replaces the C ring value, `none`
the C `-1` (including the rejected `cam_ignore` logical-server case). -/
def xive_presenter_tctx_match (tctx : XiveTCTX) (format vp_blk vp_idx : Nat)
    (cam_ignore : Bool) (logic_serv : Nat) : Option Nat :=
  if format = 0 then
    if cam_ignore then none
    else if xive_tctx_ring_match tctx TM_QW3_HV_PHYS vp_blk vp_idx false 0 then
      some TM_QW3_HV_PHYS
    else if xive_tctx_ring_match tctx TM_QW2_HV_POOL vp_blk vp_idx false 0 then
      some TM_QW2_HV_POOL
    else if xive_tctx_ring_match tctx TM_QW1_OS vp_blk vp_idx false 0 then
      some TM_QW1_OS
    else none
  else
    if xive_tctx_ring_match tctx TM_QW0_USER vp_blk vp_idx false logic_serv then
      some TM_QW0_USER
    else none

/-- The `CPU_FOREACH` loop of `xive_presenter_match`: `acc` is the match
record; a second match warns and returns `false` with the first match kept,
exactly as the C does. -/
def xive_presenter_match_go (format vp_blk vp_idx : Nat) (cam_ignore : Bool)
    (logic_serv : Nat) :
    List XiveTCTX → Option (Nat × XiveTCTX) → Bool × Option (Nat × XiveTCTX)
  | [], acc => (acc.isSome, acc)
  | t :: ts, acc =>
    match xive_presenter_tctx_match t format vp_blk vp_idx cam_ignore logic_serv with
    | some ring =>
      match acc with
      | some m => (false, some m)
      | none =>
        xive_presenter_match_go format vp_blk vp_idx cam_ignore logic_serv ts
          (some (ring, t))
    | none => xive_presenter_match_go format vp_blk vp_idx cam_ignore logic_serv ts acc

/-- `xive_presenter_match` over the list of thread contexts of all CPUs. -/
def xive_presenter_match (tctxs : List XiveTCTX) (format vp_blk vp_idx : Nat)
    (cam_ignore : Bool) (logic_serv : Nat) : Bool × Option (Nat × XiveTCTX) :=
  xive_presenter_match_go format vp_blk vp_idx cam_ignore logic_serv tctxs none

/-- Observable outcome of `xive_presenter_notify`: either nothing happened
(VP lookup failed or VP invalid), or a thread was signalled (`delivered ring
t t'`, where `t'` is the updated context, `none` modelling the C assertion in
`xive_tctx_notify` for rings without an exception mask), or the backlog was
recorded in the VP and persisted via `set_vp`. -/
inductive XivePresenterAction where
  | ignored
  | delivered (ring : Nat) (t : XiveTCTX) (updated : Option XiveTCTX)
  | backlog (vp : XiveVP)

/-- `xive_presenter_notify`.  The C reaches the backlog path whenever
`xive_presenter_match` returned false, including the duplicate-match case. -/
def xive_presenter_notify (getvp : Option XiveVP) (tctxs : List XiveTCTX)
    (format vp_blk vp_idx : Nat) (cam_ignore : Bool) (priority logic_serv : Nat) :
    XivePresenterAction :=
  match getvp with
  | none => .ignored
  | some vp =>
    if vp.w0 &&& VP_W0_VALID = 0 then .ignored
    else
      match xive_presenter_match tctxs format vp_blk vp_idx cam_ignore logic_serv with
      | (true, some (ring, t)) =>
        let t1 : XiveTCTX := { t with regs := ipb_update t.regs ring priority }
        .delivered ring t (xive_tctx_notify t1 ring)
      | _ => .backlog { vp with w4 := ipb_update vp.w4 0 priority }

/-- Projection: the backlog IPB byte recorded by a `backlog` action. -/
def presenter_backlog_ipb : XivePresenterAction → Option Nat
  | .backlog vp => some (vp.w4 TM_IPB)
  | _ => none

/-- Projection: the (ring, output line, NSR byte, IPB byte, PIPR byte) of a
`delivered` action's updated context. -/
def presenter_delivered_view : XivePresenterAction → Option (Nat × Bool × Nat × Nat × Nat)
  | .delivered ring _ (some t') =>
    some (ring, t'.out, t'.regs (ring + TM_NSR), t'.regs (ring + TM_IPB),
          t'.regs (ring + TM_PIPR))
  | _ => none

/-! ## Concrete example states used by counterexamples and witnesses -/

/-- A thread context whose registers are all zero. -/
def tctxZero : XiveTCTX := ⟨fun _ => 0, false, 0⟩

/-- A thread context satisfying the OS-ring PIPR invariant (IPB = 0,
PIPR = 0xFF). -/
def tctxInv : XiveTCTX :=
  ⟨fun i => if i = TM_QW1_OS + TM_PIPR then 0xff else 0, false, 0⟩

/-- A thread context whose OS ring CAM line matches VP 0/5 (VO set, OS CAM 5,
CPPR = 0xFF, everything else clear). -/
def tctxM : XiveTCTX :=
  ⟨fun i =>
    if i = TM_QW1_OS + TM_WORD2 then 0x80
    else if i = TM_QW1_OS + TM_WORD2 + 3 then 0x05
    else if i = TM_QW1_OS + TM_CPPR then 0xff
    else 0, false, 0⟩

/-- A valid VP descriptor with an empty backlog. -/
def vpA : XiveVP := ⟨VP_W0_VALID, fun _ => 0⟩

/-- A valid EQ with ENQUEUE set, QSIZE 0 (1024 entries), queue base
0x10000000, qindex 0, generation 0. -/
def eqC3 : XiveEQ := ⟨EQ_W0_VALID ||| EQ_W0_ENQUEUE, 0, 0, 0x10000000, 0, 0, 0, 0⟩

/-- A valid, masked EQ (format 0, priority 0xFF), UCOND_NOTIFY clear,
ENQUEUE clear, ESn in RESET. -/
def eqC6 : XiveEQ := ⟨EQ_W0_VALID, 0, 0, 0, 0, 0, 0, 0xff0000⟩

/-- A valid EQ with ENQUEUE and UCOND_NOTIFY set, priority 5, NVT 5/9. -/
def eqC7 : XiveEQ :=
  ⟨EQ_W0_VALID ||| EQ_W0_ENQUEUE ||| EQ_W0_UCOND_NOTIFY, 0, 0, 0x10000000, 0, 0,
   (5 <<< 19) ||| 9, 5 <<< 16⟩

/-- C1: the ESB 2-bit state machine implements exactly the specified
transition tables with forward flags: trigger maps RESET to PENDING returning
forward, PENDING to QUEUED no-forward, QUEUED to QUEUED no-forward, OFF to OFF
no-forward; eoi maps RESET to RESET no-forward, PENDING to RESET no-forward,
QUEUED to PENDING returning forward, OFF to OFF no-forward — for every
starting state in {RESET, OFF, PENDING, QUEUED}. -/
theorem C1_esb_transition_tables :
    xive_esb_trigger XIVE_ESB_RESET = (true, XIVE_ESB_PENDING) ∧
    xive_esb_trigger XIVE_ESB_PENDING = (false, XIVE_ESB_QUEUED) ∧
    xive_esb_trigger XIVE_ESB_QUEUED = (false, XIVE_ESB_QUEUED) ∧
    xive_esb_trigger XIVE_ESB_OFF = (false, XIVE_ESB_OFF) ∧
    xive_esb_eoi XIVE_ESB_RESET = (false, XIVE_ESB_RESET) ∧
    xive_esb_eoi XIVE_ESB_PENDING = (false, XIVE_ESB_RESET) ∧
    xive_esb_eoi XIVE_ESB_QUEUED = (true, XIVE_ESB_PENDING) ∧
    xive_esb_eoi XIVE_ESB_OFF = (false, XIVE_ESB_OFF) := by
  decide

/-- C8 counterexample: the claimed round trip
`trigger(eoi(eoi(trigger(s)))) = s` fails at the concrete state
`s = XIVE_ESB_RESET`: the composite ends in PENDING, not RESET. -/
theorem C8_counterexample :
    (xive_esb_trigger
      (xive_esb_eoi
        (xive_esb_eoi
          (xive_esb_trigger XIVE_ESB_RESET).2).2).2).2 = XIVE_ESB_PENDING ∧
    XIVE_ESB_PENDING ≠ XIVE_ESB_RESET := by
  decide

/-- C8 (amended): for the state `s = PENDING` the composite
`trigger(eoi(eoi(trigger(s))))` — innermost first, with no external retrigger
in between — returns the state to `s`.  (At `s = RESET` the composite yields
PENDING, so the claim holds only for `s = PENDING`.) -/
theorem C8_trigger_eoi_eoi_trigger_pending :
    (xive_esb_trigger
      (xive_esb_eoi
        (xive_esb_eoi
          (xive_esb_trigger XIVE_ESB_PENDING).2).2).2).2 = XIVE_ESB_PENDING := by
  decide

/-- C2: for every TCTX state, the 2-byte ACK_OS_REG load on the OS page
dispatches to the accept operation, lowers the output line and, if `NSR.EO`
is set, copies PIPR into CPPR, clears the IPB bit for that priority,
recomputes PIPR from the new IPB, clears `NSR.EO`, and returns
`(old_NSR << 8) | new_CPPR`; if `NSR.EO` is clear, CPPR and IPB are unchanged
and the return value is `(old_NSR << 8) | CPPR`. -/
theorem C2_ack_os_reg_behaviour :
    xive_tm_find_op ((XIVE_TM_OS_PAGE <<< TM_SHIFT) ||| TM_SPC_ACK_OS_REG) 2 false =
      some ⟨XIVE_TM_OS_PAGE, TM_SPC_ACK_OS_REG, 2, none, some .ack_os_reg⟩ ∧
    ∀ tctx : XiveTCTX,
      (xive_tm_ack_os_reg tctx).map (fun p => p.2.out) = some false ∧
      (xive_tm_ack_os_reg tctx).map (fun p => p.2.regs (TM_QW1_OS + TM_CPPR)) =
        some (if tctx.regs (TM_QW1_OS + TM_NSR) &&& TM_QW1_NSR_EO ≠ 0 then
                tctx.regs (TM_QW1_OS + TM_PIPR)
              else tctx.regs (TM_QW1_OS + TM_CPPR)) ∧
      (xive_tm_ack_os_reg tctx).map (fun p => p.2.regs (TM_QW1_OS + TM_IPB)) =
        some (if tctx.regs (TM_QW1_OS + TM_NSR) &&& TM_QW1_NSR_EO ≠ 0 then
                tctx.regs (TM_QW1_OS + TM_IPB) &&&
                  (0xff ^^^ priority_to_ipb (tctx.regs (TM_QW1_OS + TM_PIPR)))
              else tctx.regs (TM_QW1_OS + TM_IPB)) ∧
      (xive_tm_ack_os_reg tctx).map (fun p => p.2.regs (TM_QW1_OS + TM_PIPR)) =
        some (if tctx.regs (TM_QW1_OS + TM_NSR) &&& TM_QW1_NSR_EO ≠ 0 then
                ipb_to_pipr (tctx.regs (TM_QW1_OS + TM_IPB) &&&
                  (0xff ^^^ priority_to_ipb (tctx.regs (TM_QW1_OS + TM_PIPR))))
              else tctx.regs (TM_QW1_OS + TM_PIPR)) ∧
      (xive_tm_ack_os_reg tctx).map (fun p => p.2.regs (TM_QW1_OS + TM_NSR)) =
        some (if tctx.regs (TM_QW1_OS + TM_NSR) &&& TM_QW1_NSR_EO ≠ 0 then
                tctx.regs (TM_QW1_OS + TM_NSR) &&& (0xff ^^^ TM_QW1_NSR_EO)
              else tctx.regs (TM_QW1_OS + TM_NSR)) ∧
      (xive_tm_ack_os_reg tctx).map Prod.fst =
        some ((tctx.regs (TM_QW1_OS + TM_NSR) <<< 8) |||
              (if tctx.regs (TM_QW1_OS + TM_NSR) &&& TM_QW1_NSR_EO ≠ 0 then
                tctx.regs (TM_QW1_OS + TM_PIPR)
               else tctx.regs (TM_QW1_OS + TM_CPPR))) := by
  refine ⟨by decide, fun tctx => ?_⟩
  by_cases h : tctx.regs (TM_QW1_OS + TM_NSR) &&& TM_QW1_NSR_EO = 0
  · simp only [TM_QW1_OS, TM_NSR, Nat.add_zero] at h
    refine ⟨?_, ?_, ?_, ?_, ?_, ?_⟩ <;>
      simp [xive_tm_ack_os_reg, xive_tctx_accept, exception_mask, upd, h,
            TM_QW1_OS, TM_NSR, TM_CPPR, TM_IPB, TM_PIPR]
  · simp only [TM_QW1_OS, TM_NSR, Nat.add_zero] at h
    refine ⟨?_, ?_, ?_, ?_, ?_, ?_⟩ <;>
      simp [xive_tm_ack_os_reg, xive_tctx_accept, exception_mask, upd, h,
            TM_QW1_OS, TM_NSR, TM_CPPR, TM_IPB, TM_PIPR]

/-- C4 counterexample: after guest reset the QW0_USER ring has PIPR = 0 while
`ipb_to_pipr(IPB) = ipb_to_pipr 0 = 0xFF`, and a permitted raw 4-byte TIMA
write that sets the OS-ring IPB byte does not recompute PIPR, so the claimed
"for every ring after any operation" invariant is false. -/
theorem C4_counterexample :
    ((xive_tctx_reset tctxZero 0 5 false).regs (TM_QW0_USER + TM_PIPR) ≠
      ipb_to_pipr ((xive_tctx_reset tctxZero 0 5 false).regs (TM_QW0_USER + TM_IPB))) ∧
    ((xive_tm_raw_write (xive_tctx_reset tctxZero 0 5 false) 0x10 0x100 4).regs
        (TM_QW1_OS + TM_PIPR) ≠
      ipb_to_pipr ((xive_tm_raw_write (xive_tctx_reset tctxZero 0 5 false) 0x10 0x100 4).regs
        (TM_QW1_OS + TM_IPB))) := by
  decide

/-- C4 (amended): the PIPR invariant holds where the code maintains it: after
guest reset the OS ring satisfies `PIPR = ipb_to_pipr(IPB)` (the other rings
are left with PIPR = 0); every IPB update through `ipb_update` re-establishes
the invariant for the ring it touches; and the OS-ring accept operation
preserves it.  (Raw TIMA writes can break it, as the counterexample shows.) -/
theorem C4_pipr_invariant_amended :
    (∀ (tctx : XiveTCTX) (chip_id vcpu_id : Nat) (msr_hv : Bool),
      (xive_tctx_reset tctx chip_id vcpu_id msr_hv).regs (TM_QW1_OS + TM_PIPR) =
        ipb_to_pipr ((xive_tctx_reset tctx chip_id vcpu_id msr_hv).regs (TM_QW1_OS + TM_IPB))) ∧
    (∀ (regs : Nat → Nat) (base priority : Nat),
      ipb_update regs base priority (base + TM_PIPR) =
        ipb_to_pipr (ipb_update regs base priority (base + TM_IPB))) ∧
    (∀ (tctx : XiveTCTX) (ret : Nat) (tctx' : XiveTCTX),
      tctx.regs (TM_QW1_OS + TM_PIPR) = ipb_to_pipr (tctx.regs (TM_QW1_OS + TM_IPB)) →
      xive_tctx_accept tctx TM_QW1_OS = some (ret, tctx') →
      tctx'.regs (TM_QW1_OS + TM_PIPR) = ipb_to_pipr (tctx'.regs (TM_QW1_OS + TM_IPB))) := by
  refine ⟨fun tctx chip_id vcpu_id msr_hv => ?_, fun regs base priority => ?_,
          fun tctx ret tctx' hinv hacc => ?_⟩
  · cases msr_hv <;>
      simp [xive_tctx_reset, upd, TM_QW1_OS, TM_PIPR, TM_IPB, TM_LSMFB, TM_ACK_CNT,
            TM_AGE, TM_WORD2]
  · simp only [ipb_update, upd]
    split_ifs with h1 h2 h3 <;> simp_all [TM_PIPR, TM_IPB]
  · by_cases h : tctx.regs (TM_QW1_OS + TM_NSR) &&& TM_QW1_NSR_EO = 0
    · simp only [TM_QW1_OS, TM_NSR, Nat.add_zero] at h
      simp [xive_tctx_accept, exception_mask, h, TM_QW1_OS, TM_NSR] at hacc
      obtain ⟨-, hT⟩ := hacc
      rw [← hT]
      simpa using hinv
    · simp only [TM_QW1_OS, TM_NSR, Nat.add_zero] at h
      simp [xive_tctx_accept, exception_mask, h, TM_QW1_OS, TM_NSR] at hacc
      obtain ⟨-, hT⟩ := hacc
      rw [← hT]
      simp [upd, TM_QW1_OS, TM_NSR, TM_CPPR, TM_IPB, TM_PIPR]

/-- C4 witness: the accept-preservation part of the amended invariant applied
at the concrete context `tctxInv` (IPB = 0, PIPR = 0xFF, NSR.EO clear). -/
theorem C4_pipr_invariant_witness :
    tctxInv.regs (TM_QW1_OS + TM_PIPR) = ipb_to_pipr (tctxInv.regs (TM_QW1_OS + TM_IPB)) ∧
    (∃ ret tctx', xive_tctx_accept tctxInv TM_QW1_OS = some (ret, tctx') ∧
      tctx'.regs (TM_QW1_OS + TM_PIPR) = ipb_to_pipr (tctx'.regs (TM_QW1_OS + TM_IPB))) := by
  refine ⟨by decide, 0, { tctxInv with out := false }, by rfl, ?_⟩
  exact C4_pipr_invariant_amended.2.2 tctxInv 0 { tctxInv with out := false } (by decide) (by rfl)

/-! ## Helper lemmas about descriptor fields and queue arithmetic -/

/-- Any extracted field value is bounded by its width. -/
theorem GETFIELD_lt (f : BitField) (w : Nat) : GETFIELD f w < 2 ^ f.width :=
  Nat.mod_lt _ (Nat.pow_pos (by norm_num))

theorem getfield_pageoff_setfield_pageoff (w v : Nat) :
    GETFIELD EQ_W1_PAGE_OFF (SETFIELD EQ_W1_PAGE_OFF w v) = v % 2 ^ 22 := by
  simp only [GETFIELD, SETFIELD, EQ_W1_PAGE_OFF, Nat.shiftRight_eq_div_pow]
  norm_num
  omega

theorem getfield_gen_setfield_pageoff (w v : Nat) :
    GETFIELD EQ_W1_GENERATION (SETFIELD EQ_W1_PAGE_OFF w v) =
      GETFIELD EQ_W1_GENERATION w := by
  simp only [GETFIELD, SETFIELD, EQ_W1_PAGE_OFF, EQ_W1_GENERATION,
             Nat.shiftRight_eq_div_pow]
  norm_num
  omega

theorem getfield_pageoff_setfield_gen (w g : Nat) :
    GETFIELD EQ_W1_PAGE_OFF (SETFIELD EQ_W1_GENERATION w g) =
      GETFIELD EQ_W1_PAGE_OFF w := by
  simp only [GETFIELD, SETFIELD, EQ_W1_PAGE_OFF, EQ_W1_GENERATION,
             Nat.shiftRight_eq_div_pow]
  norm_num
  omega

theorem getfield_gen_setfield_gen (w g : Nat) :
    GETFIELD EQ_W1_GENERATION (SETFIELD EQ_W1_GENERATION w g) = g % 2 := by
  simp only [GETFIELD, SETFIELD, EQ_W1_GENERATION, Nat.shiftRight_eq_div_pow]
  norm_num
  omega

theorem getfield_esn_setfield_pageoff (w v : Nat) :
    GETFIELD EQ_W1_ESn (SETFIELD EQ_W1_PAGE_OFF w v) = GETFIELD EQ_W1_ESn w := by
  simp only [GETFIELD, SETFIELD, EQ_W1_PAGE_OFF, EQ_W1_ESn,
             Nat.shiftRight_eq_div_pow]
  norm_num
  omega

theorem getfield_esn_setfield_gen (w g : Nat) :
    GETFIELD EQ_W1_ESn (SETFIELD EQ_W1_GENERATION w g) = GETFIELD EQ_W1_ESn w := by
  simp only [GETFIELD, SETFIELD, EQ_W1_GENERATION, EQ_W1_ESn,
             Nat.shiftRight_eq_div_pow]
  norm_num
  omega

/-- Stepping a circular index: incrementing modulo N commutes with taking the
index modulo N, and the quotient grows exactly on wrap. -/
theorem queue_step (N K : Nat) (hN : 0 < N) :
    (K % N + 1) % N = (K + 1) % N ∧
    ((K + 1) % N = 0 → (K + 1) / N = K / N + 1) ∧
    ((K + 1) % N ≠ 0 → (K + 1) / N = K / N) := by
  have h1 : K % N < N := Nat.mod_lt _ hN
  have hdm : N * (K / N) + K % N = K := Nat.div_add_mod K N
  by_cases hc : K % N + 1 = N
  · have hK1 : K + 1 = N * (K / N + 1) := by rw [Nat.mul_succ]; omega
    refine ⟨?_, fun _ => ?_, fun hne => ?_⟩
    · rw [hc, Nat.mod_self, hK1, Nat.mul_mod_right]
    · rw [hK1, Nat.mul_div_cancel_left _ hN]
    · exact absurd (by rw [hK1, Nat.mul_mod_right]) hne
  · have hlt : K % N + 1 < N := by omega
    have hK1 : K + 1 = (K % N + 1) + N * (K / N) := by omega
    have hmod : (K + 1) % N = K % N + 1 := by
      rw [hK1, Nat.add_mul_mod_self_left, Nat.mod_eq_of_lt hlt]
    have hdiv : (K + 1) / N = K / N := by
      rw [hK1, Nat.add_mul_div_left _ _ hN, Nat.div_eq_of_lt hlt]
      exact Nat.zero_add _
    exact ⟨by rw [hmod, Nat.mod_eq_of_lt hlt], fun hz => by omega, fun _ => hdiv⟩

/-- Flipping a generation bit is the same as XOR with the incremented parity. -/
theorem xor_flip (g p : Nat) (hg : g < 2) (hp : p < 2) :
    (g ^^^ p) ^^^ 1 = g ^^^ ((p + 1) % 2) := by
  interval_cases g <;> interval_cases p <;> decide

/-- Behaviour of a single successful `xive_eq_push`: the untouched words, the
performed write, the new index and generation, and the untouched ESn bits. -/
theorem eq_push_spec (dmaOk : Nat → Bool) (eq : XiveEQ) (data : Nat)
    (hdma : dmaOk ((((eq.w2 &&& 0x0fffffff) <<< 32) ||| eq.w3) +
      (GETFIELD EQ_W1_PAGE_OFF eq.w1 <<< 2)) = true) :
    (xive_eq_push dmaOk eq data).1.w0 = eq.w0 ∧
    (xive_eq_push dmaOk eq data).1.w6 = eq.w6 ∧
    (xive_eq_push dmaOk eq data).1.w7 = eq.w7 ∧
    (xive_eq_push dmaOk eq data).2 =
      some ((((eq.w2 &&& 0x0fffffff) <<< 32) ||| eq.w3) +
              (GETFIELD EQ_W1_PAGE_OFF eq.w1 <<< 2),
            cpu_to_be32 ((GETFIELD EQ_W1_GENERATION eq.w1 <<< 31) |||
              (data &&& 0x7fffffff))) ∧
    GETFIELD EQ_W1_PAGE_OFF (xive_eq_push dmaOk eq data).1.w1 =
      (GETFIELD EQ_W1_PAGE_OFF eq.w1 + 1) % 2 ^ (GETFIELD EQ_W0_QSIZE eq.w0 + 10) ∧
    GETFIELD EQ_W1_GENERATION (xive_eq_push dmaOk eq data).1.w1 =
      (if (GETFIELD EQ_W1_PAGE_OFF eq.w1 + 1) % 2 ^ (GETFIELD EQ_W0_QSIZE eq.w0 + 10) = 0
       then GETFIELD EQ_W1_GENERATION eq.w1 ^^^ 1
       else GETFIELD EQ_W1_GENERATION eq.w1) ∧
    GETFIELD EQ_W1_ESn (xive_eq_push dmaOk eq data).1.w1 = GETFIELD EQ_W1_ESn eq.w1 := by
  have hqs : GETFIELD EQ_W0_QSIZE eq.w0 < 8 := GETFIELD_lt EQ_W0_QSIZE eq.w0
  have hN : 0 < 2 ^ (GETFIELD EQ_W0_QSIZE eq.w0 + 10) := Nat.pow_pos (by norm_num)
  have hidx : (GETFIELD EQ_W1_PAGE_OFF eq.w1 + 1) %
      2 ^ (GETFIELD EQ_W0_QSIZE eq.w0 + 10) < 2 ^ 22 :=
    lt_of_lt_of_le (Nat.mod_lt _ hN) (Nat.pow_le_pow_right (by norm_num) (by omega))
  have hgen : GETFIELD EQ_W1_GENERATION eq.w1 < 2 := GETFIELD_lt EQ_W1_GENERATION eq.w1
  simp only [xive_eq_push, hdma, Bool.true_eq_false, if_false, Nat.one_shiftLeft]
  refine ⟨by trivial, by trivial, by trivial, by trivial, ?_, ?_, ?_⟩
  · by_cases hz : (GETFIELD EQ_W1_PAGE_OFF eq.w1 + 1) %
        2 ^ (GETFIELD EQ_W0_QSIZE eq.w0 + 10) = 0 <;>
      simp [hz, getfield_pageoff_setfield_pageoff, getfield_pageoff_setfield_gen,
            Nat.mod_eq_of_lt hidx] <;>
      try exact hidx
  · by_cases hz : (GETFIELD EQ_W1_PAGE_OFF eq.w1 + 1) %
        2 ^ (GETFIELD EQ_W0_QSIZE eq.w0 + 10) = 0
    · have hx : GETFIELD EQ_W1_GENERATION eq.w1 ^^^ 1 < 2 :=
        Nat.xor_lt_two_pow (n := 1) hgen (by norm_num)
      simp [hz, getfield_gen_setfield_pageoff, getfield_gen_setfield_gen,
            Nat.mod_eq_of_lt hx]
    · simp [hz, getfield_gen_setfield_pageoff]
  · by_cases hz : (GETFIELD EQ_W1_PAGE_OFF eq.w1 + 1) %
        2 ^ (GETFIELD EQ_W0_QSIZE eq.w0 + 10) = 0 <;>
      simp [hz, getfield_esn_setfield_pageoff, getfield_esn_setfield_gen]

/-- Iterated pushes never touch `w0`. -/
theorem eq_pushN_w0 (eq : XiveEQ) (data : Nat) :
    ∀ K, (xive_eq_pushN eq data K).w0 = eq.w0 := by
  intro K
  induction K with
  | zero => rfl
  | succ k ih =>
    have h := eq_push_spec (fun _ => true) (xive_eq_pushN eq data k) data rfl
    simpa [xive_eq_pushN, ih] using h.1

/-- The queue index / generation evolution across `K` successful pushes. -/
theorem eq_pushN_spec (eq : XiveEQ) (data : Nat)
    (h0 : GETFIELD EQ_W1_PAGE_OFF eq.w1 = 0) :
    ∀ K, GETFIELD EQ_W1_PAGE_OFF (xive_eq_pushN eq data K).w1 =
        K % 2 ^ (GETFIELD EQ_W0_QSIZE eq.w0 + 10) ∧
      GETFIELD EQ_W1_GENERATION (xive_eq_pushN eq data K).w1 =
        GETFIELD EQ_W1_GENERATION eq.w1 ^^^
          (K / 2 ^ (GETFIELD EQ_W0_QSIZE eq.w0 + 10) % 2) := by
  intro K
  have hN : 0 < 2 ^ (GETFIELD EQ_W0_QSIZE eq.w0 + 10) := Nat.pow_pos (by norm_num)
  have hg0 : GETFIELD EQ_W1_GENERATION eq.w1 < 2 := GETFIELD_lt EQ_W1_GENERATION eq.w1
  induction K with
  | zero => refine ⟨?_, ?_⟩ <;> simp [xive_eq_pushN, h0, Nat.zero_div]
  | succ k ih =>
    obtain ⟨ihq, ihg⟩ := ih
    have hp := eq_push_spec (fun _ => true) (xive_eq_pushN eq data k) data rfl
    obtain ⟨-, -, -, -, hq, hg, -⟩ := hp
    have hw0 := eq_pushN_w0 eq data k
    rw [hw0] at hq hg
    rw [ihq] at hq hg
    obtain ⟨hstep, hwrap, hnowrap⟩ :=
      queue_step (2 ^ (GETFIELD EQ_W0_QSIZE eq.w0 + 10)) k hN
    constructor
    · show GETFIELD EQ_W1_PAGE_OFF (xive_eq_push (fun _ => true)
        (xive_eq_pushN eq data k) data).1.w1 = _
      rw [hq, hstep]
    · show GETFIELD EQ_W1_GENERATION (xive_eq_push (fun _ => true)
        (xive_eq_pushN eq data k) data).1.w1 = _
      rw [hg, ihg, hstep]
      by_cases hz : (k + 1) % 2 ^ (GETFIELD EQ_W0_QSIZE eq.w0 + 10) = 0
      · rw [if_pos hz, hwrap hz]
        have hp2 : k / 2 ^ (GETFIELD EQ_W0_QSIZE eq.w0 + 10) % 2 < 2 :=
          Nat.mod_lt _ (by norm_num)
        rw [xor_flip _ _ hg0 hp2, Nat.add_mod
          (k / 2 ^ (GETFIELD EQ_W0_QSIZE eq.w0 + 10)) 1 2]
      · rw [if_neg hz, hnowrap hz]

/-- C3: for every EQ descriptor with ENQUEUE set and every data value, the
router's notification performs the push and persists its result; a successful
push writes the big-endian word `(generation << 31) | (data & 0x7fffffff)` at
`qaddr_base + (qindex << 2)`, increments `qindex` modulo `2^(QSIZE+10)`, and
flips the generation bit exactly when `qindex` wraps to 0; consequently after
`K` pushes into a queue of `N = 2^(QSIZE+10)` entries starting at index 0,
`qindex = K mod N` and the generation is the initial generation XOR
`(K / N) mod 2`. -/
theorem C3_eq_push_behaviour :
    (∀ (eq : XiveEQ) (data : Nat) (dmaOk : Nat → Bool),
      eq.w0 &&& EQ_W0_VALID ≠ 0 → eq.w0 &&& EQ_W0_ENQUEUE ≠ 0 →
      (xive_router_eq_notify (some eq) dmaOk data).write =
        (xive_eq_push dmaOk eq data).2 ∧
      (xive_router_eq_notify (some eq) dmaOk data).setEqCalls.head? =
        some (xive_eq_push dmaOk eq data).1) ∧
    (∀ (eq : XiveEQ) (data : Nat) (dmaOk : Nat → Bool),
      dmaOk ((((eq.w2 &&& 0x0fffffff) <<< 32) ||| eq.w3) +
        (GETFIELD EQ_W1_PAGE_OFF eq.w1 <<< 2)) = true →
      (xive_eq_push dmaOk eq data).2 =
        some ((((eq.w2 &&& 0x0fffffff) <<< 32) ||| eq.w3) +
                (GETFIELD EQ_W1_PAGE_OFF eq.w1 <<< 2),
              cpu_to_be32 ((GETFIELD EQ_W1_GENERATION eq.w1 <<< 31) |||
                (data &&& 0x7fffffff))) ∧
      GETFIELD EQ_W1_PAGE_OFF (xive_eq_push dmaOk eq data).1.w1 =
        (GETFIELD EQ_W1_PAGE_OFF eq.w1 + 1) %
          2 ^ (GETFIELD EQ_W0_QSIZE eq.w0 + 10) ∧
      GETFIELD EQ_W1_GENERATION (xive_eq_push dmaOk eq data).1.w1 =
        (if (GETFIELD EQ_W1_PAGE_OFF eq.w1 + 1) %
              2 ^ (GETFIELD EQ_W0_QSIZE eq.w0 + 10) = 0
         then GETFIELD EQ_W1_GENERATION eq.w1 ^^^ 1
         else GETFIELD EQ_W1_GENERATION eq.w1)) ∧
    (∀ (eq : XiveEQ) (data K : Nat),
      GETFIELD EQ_W1_PAGE_OFF eq.w1 = 0 →
      GETFIELD EQ_W1_PAGE_OFF (xive_eq_pushN eq data K).w1 =
        K % 2 ^ (GETFIELD EQ_W0_QSIZE eq.w0 + 10) ∧
      GETFIELD EQ_W1_GENERATION (xive_eq_pushN eq data K).w1 =
        GETFIELD EQ_W1_GENERATION eq.w1 ^^^
          (K / 2 ^ (GETFIELD EQ_W0_QSIZE eq.w0 + 10) % 2)) := by
  refine ⟨fun eq data dmaOk hv he => ?_,
          fun eq data dmaOk h => ?_,
          fun eq data K h0 => eq_pushN_spec eq data h0 K⟩
  · simp only [xive_router_eq_notify, if_neg hv, if_pos he]
    refine ⟨?_, ?_⟩ <;> split_ifs <;> simp
  · obtain ⟨-, -, -, h4, h5, h6, -⟩ := eq_push_spec dmaOk eq data h
    exact ⟨h4, h5, h6⟩

/-- C3 witness: instantiating the iterated-push law at the concrete queue
`eqC3` (1024 entries, initial index 0, initial generation 0) and `K = 1025`
pushes. -/
theorem C3_eq_push_witness :
    GETFIELD EQ_W1_PAGE_OFF eqC3.w1 = 0 ∧
    GETFIELD EQ_W1_PAGE_OFF (xive_eq_pushN eqC3 0xABCD 1025).w1 =
      1025 % 2 ^ (GETFIELD EQ_W0_QSIZE eqC3.w0 + 10) ∧
    GETFIELD EQ_W1_GENERATION (xive_eq_pushN eqC3 0xABCD 1025).w1 =
      GETFIELD EQ_W1_GENERATION eqC3.w1 ^^^
        (1025 / 2 ^ (GETFIELD EQ_W0_QSIZE eqC3.w0 + 10) % 2) := by
  refine ⟨by decide, ?_, ?_⟩
  · exact (C3_eq_push_behaviour.2.2 eqC3 0xABCD 1025 (by decide)).1
  · exact (C3_eq_push_behaviour.2.2 eqC3 0xABCD 1025 (by decide)).2

/-- C5 counterexample: the 2-byte ACK_OS_REG load handler, registered for the
OS page, is not found from the USER page, although it is found from the OS
page itself — refuting "OS-page handlers are reachable from the USER page". -/
theorem C5_counterexample :
    xive_tm_find_op ((XIVE_TM_USER_PAGE <<< TM_SHIFT) ||| TM_SPC_ACK_OS_REG) 2 false =
      none ∧
    xive_tm_find_op ((XIVE_TM_OS_PAGE <<< TM_SHIFT) ||| TM_SPC_ACK_OS_REG) 2 false ≠
      none := by
  decide

/-- C5 (amended): a TIMA operation handler registered for a page is invoked
for the same op offset, size and direction from that page and from every
more-privileged page (lower page number), and not from less-privileged pages:
the OS-page handlers are reachable from the HW and HV pages but not from the
USER page. -/
theorem C5_tm_find_op_privilege :
    (∀ page : Nat, page ≤ XIVE_TM_OS_PAGE →
      xive_tm_find_op ((page <<< TM_SHIFT) ||| TM_SPC_ACK_OS_REG) 2 false =
        some ⟨XIVE_TM_OS_PAGE, TM_SPC_ACK_OS_REG, 2, none, some .ack_os_reg⟩ ∧
      xive_tm_find_op ((page <<< TM_SHIFT) ||| TM_SPC_SET_OS_PENDING) 1 true =
        some ⟨XIVE_TM_OS_PAGE, TM_SPC_SET_OS_PENDING, 1, some .set_os_pending, none⟩ ∧
      xive_tm_find_op ((page <<< TM_SHIFT) ||| (TM_QW1_OS + TM_CPPR)) 1 true =
        some ⟨XIVE_TM_OS_PAGE, TM_QW1_OS + TM_CPPR, 1, some .set_os_cppr, none⟩) ∧
    xive_tm_find_op ((XIVE_TM_USER_PAGE <<< TM_SHIFT) ||| TM_SPC_ACK_OS_REG) 2 false =
      none ∧
    xive_tm_find_op ((XIVE_TM_USER_PAGE <<< TM_SHIFT) ||| TM_SPC_SET_OS_PENDING) 1 true =
      none ∧
    xive_tm_find_op ((XIVE_TM_USER_PAGE <<< TM_SHIFT) ||| (TM_QW1_OS + TM_CPPR)) 1 true =
      none := by
  refine ⟨fun page hp => ?_, by decide, by decide, by decide⟩
  simp only [XIVE_TM_OS_PAGE] at hp
  interval_cases page <;> exact ⟨by decide, by decide, by decide⟩

/-- C5 witness: the amended privilege rule applied at the HV page. -/
theorem C5_tm_find_op_witness :
    xive_tm_find_op ((XIVE_TM_HV_PAGE <<< TM_SHIFT) ||| TM_SPC_ACK_OS_REG) 2 false =
      some ⟨XIVE_TM_OS_PAGE, TM_SPC_ACK_OS_REG, 2, none, some .ack_os_reg⟩ ∧
    xive_tm_find_op ((XIVE_TM_HV_PAGE <<< TM_SHIFT) ||| TM_SPC_SET_OS_PENDING) 1 true =
      some ⟨XIVE_TM_OS_PAGE, TM_SPC_SET_OS_PENDING, 1, some .set_os_pending, none⟩ ∧
    xive_tm_find_op ((XIVE_TM_HV_PAGE <<< TM_SHIFT) ||| (TM_QW1_OS + TM_CPPR)) 1 true =
      some ⟨XIVE_TM_OS_PAGE, TM_QW1_OS + TM_CPPR, 1, some .set_os_cppr, none⟩ :=
  C5_tm_find_op_privilege.1 XIVE_TM_HV_PAGE (by decide)

/-- A push (including a failed one) never changes `w0`, `w6`, `w7` or the
ESn bits of `w1`. -/
theorem eq_push_preserves (dmaOk : Nat → Bool) (eq : XiveEQ) (data : Nat) :
    (xive_eq_push dmaOk eq data).1.w0 = eq.w0 ∧
    (xive_eq_push dmaOk eq data).1.w6 = eq.w6 ∧
    (xive_eq_push dmaOk eq data).1.w7 = eq.w7 ∧
    GETFIELD EQ_W1_ESn (xive_eq_push dmaOk eq data).1.w1 =
      GETFIELD EQ_W1_ESn eq.w1 := by
  by_cases hd : dmaOk ((((eq.w2 &&& 0x0fffffff) <<< 32) ||| eq.w3) +
      (GETFIELD EQ_W1_PAGE_OFF eq.w1 <<< 2)) = false
  · simp [xive_eq_push, hd]
  · have hdt : dmaOk ((((eq.w2 &&& 0x0fffffff) <<< 32) ||| eq.w3) +
        (GETFIELD EQ_W1_PAGE_OFF eq.w1 <<< 2)) = true := by
      revert hd
      cases dmaOk ((((eq.w2 &&& 0x0fffffff) <<< 32) ||| eq.w3) +
        (GETFIELD EQ_W1_PAGE_OFF eq.w1 <<< 2)) <;> simp
    obtain ⟨h0, h6, h7, -, -, -, hesn⟩ := eq_push_spec dmaOk eq data hdt
    exact ⟨h0, h6, h7, hesn⟩

/-- C6 counterexample: notifying the concrete valid, masked (format 0,
priority 0xFF) EQ `eqC6`, which has UCOND_NOTIFY clear and ESn in RESET,
persists nothing at all — the ESn trigger never runs, refuting the claim that
the ESn state is still updated for a masked EQ. -/
theorem C6_counterexample :
    (xive_router_eq_notify (some eqC6) (fun _ => true) 0).setEqCalls = [] ∧
    (xive_router_eq_notify (some eqC6) (fun _ => true) 0).presented = none := by
  decide

/-- C6 (amended): in `eq_notify` the masked-EQ check (format 0, priority
0xFF) is performed before the ESn trigger, so for every valid masked EQ with
UCOND_NOTIFY clear the notification stops without reaching the presenter and
without any change to the persisted ESn state. -/
theorem C6_masked_check_before_esn :
    ∀ (eq : XiveEQ) (dmaOk : Nat → Bool) (data : Nat),
      eq.w0 &&& EQ_W0_VALID ≠ 0 →
      eq.w0 &&& EQ_W0_UCOND_NOTIFY = 0 →
      GETFIELD EQ_W6_FORMAT_BIT eq.w6 = 0 →
      GETFIELD EQ_W7_F0_PRIORITY eq.w7 = 0xff →
      (xive_router_eq_notify (some eq) dmaOk data).presented = none ∧
      ∀ e ∈ (xive_router_eq_notify (some eq) dmaOk data).setEqCalls,
        GETFIELD EQ_W1_ESn e.w1 = GETFIELD EQ_W1_ESn eq.w1 := by
  intro eq dmaOk data hv _hu hf hp
  by_cases he : eq.w0 &&& EQ_W0_ENQUEUE = 0
  · have hne : ¬eq.w0 &&& EQ_W0_ENQUEUE ≠ 0 := by simp [he]
    simp only [xive_router_eq_notify, if_neg hv, if_neg hne]
    rw [if_pos ⟨hf, hp⟩]
    exact ⟨rfl, by simp⟩
  · simp only [xive_router_eq_notify, if_neg hv, if_pos he]
    obtain ⟨-, h6, h7, hesn⟩ := eq_push_preserves dmaOk eq data
    rw [h6, h7, if_pos ⟨hf, hp⟩]
    refine ⟨rfl, ?_⟩
    intro e hmem
    simp only [List.mem_singleton] at hmem
    rw [hmem]
    exact hesn

/-- C6 witness: the amended masked-before-ESn rule applied at the concrete
masked EQ `eqC6`. -/
theorem C6_masked_witness :
    (xive_router_eq_notify (some eqC6) (fun _ => true) 7).presented = none ∧
    ∀ e ∈ (xive_router_eq_notify (some eqC6) (fun _ => true) 7).setEqCalls,
      GETFIELD EQ_W1_ESn e.w1 = GETFIELD EQ_W1_ESn eqC6.w1 :=
  C6_masked_check_before_esn eqC6 (fun _ => true) 7 (by decide) (by decide)
    (by decide) (by decide)

/-- C7 counterexample: with the DMA channel failing, notifying the concrete
valid EQ `eqC7` (ENQUEUE and UCOND_NOTIFY set, priority 5) performs no write
and does not advance the queue (the unchanged descriptor is persisted), but
the notification chain still reaches the presenter — refuting "no further
step of the notification chain takes place". -/
theorem C7_counterexample :
    (xive_router_eq_notify (some eqC7) (fun _ => false) 0xABCD).write = none ∧
    (xive_router_eq_notify (some eqC7) (fun _ => false) 0xABCD).setEqCalls = [eqC7] ∧
    (xive_router_eq_notify (some eqC7) (fun _ => false) 0xABCD).presented ≠ none := by
  decide

/-- C7 (amended): when the DMA write of an EQ entry fails, the entry is not
written and the queue index and generation are not advanced (the descriptor
is persisted unchanged), but the rest of the notification chain still runs:
for an unmasked EQ with UCOND_NOTIFY set, the presenter is still invoked. -/
theorem C7_dma_failure_continues :
    ∀ (eq : XiveEQ) (data : Nat),
      eq.w0 &&& EQ_W0_VALID ≠ 0 → eq.w0 &&& EQ_W0_ENQUEUE ≠ 0 →
      (xive_router_eq_notify (some eq) (fun _ => false) data).write = none ∧
      (xive_router_eq_notify (some eq) (fun _ => false) data).setEqCalls.head? =
        some eq ∧
      (eq.w0 &&& EQ_W0_UCOND_NOTIFY ≠ 0 →
        ¬(GETFIELD EQ_W6_FORMAT_BIT eq.w6 = 0 ∧
          GETFIELD EQ_W7_F0_PRIORITY eq.w7 = 0xff) →
        (xive_router_eq_notify (some eq) (fun _ => false) data).presented ≠ none) := by
  intro eq data hv he
  have hpush : xive_eq_push (fun _ => false) eq data = (eq, none) := by
    simp [xive_eq_push]
  simp only [xive_router_eq_notify, if_neg hv, if_pos he, hpush]
  refine ⟨?_, ?_, fun hu hmask => ?_⟩
  · split_ifs <;> simp
  · split_ifs <;> simp
  · have hnu : ¬eq.w0 &&& EQ_W0_UCOND_NOTIFY = 0 := hu
    rw [if_neg hmask, if_neg hnu]
    simp

/-- C7 witness: the amended DMA-failure behaviour applied at the concrete EQ
`eqC7`. -/
theorem C7_dma_failure_witness :
    (xive_router_eq_notify (some eqC7) (fun _ => false) 0x1234).write = none ∧
    (xive_router_eq_notify (some eqC7) (fun _ => false) 0x1234).setEqCalls.head? =
      some eqC7 ∧
    (xive_router_eq_notify (some eqC7) (fun _ => false) 0x1234).presented ≠ none := by
  obtain ⟨h1, h2, h3⟩ := C7_dma_failure_continues eqC7 0x1234 (by decide) (by decide)
  exact ⟨h1, h2, h3 (by decide) (by decide)⟩

/-- OS-ring exception check: `xive_tctx_notify` raises `NSR.EO` and the
output line exactly when `PIPR < CPPR`. -/
theorem tctx_notify_os (t1 : XiveTCTX) :
    xive_tctx_notify t1 TM_QW1_OS =
      some (if t1.regs (TM_QW1_OS + TM_PIPR) < t1.regs (TM_QW1_OS + TM_CPPR)
            then { t1 with
                    regs := upd t1.regs (TM_QW1_OS + TM_NSR)
                      (t1.regs (TM_QW1_OS + TM_NSR) ||| TM_QW1_NSR_EO),
                    out := true }
            else t1) := by
  by_cases h : t1.regs (TM_QW1_OS + TM_PIPR) < t1.regs (TM_QW1_OS + TM_CPPR) <;>
    simp [xive_tctx_notify, exception_mask, h]

/-- C9 counterexample: with the same OS-matching context dispatched twice,
the presenter detects the duplicate match, warns — and then falls through to
the backlog path, updating the VP backlog IPB (priority 4 bit = 0x08) and
persisting the VP, refuting "returns without updating any TCTX ring or VP
state". -/
theorem C9_counterexample :
    presenter_backlog_ipb
      (xive_presenter_notify (some vpA) [tctxM, tctxM] 0 0 5 false 4 0) =
      some 0x08 := by
  decide

/-- C9 (amended): for a valid VP, if the CAM scan finds exactly one matching
context on the OS ring, that ring's IPB is ORed with the priority bit, PIPR
is recomputed, and `NSR.EO` is set with the output line asserted iff the new
PIPR < CPPR; whenever the scan returns false — zero matches or a duplicate
match — the priority bit is recorded in the VP backlog IPB (`vp.w4`) and the
VP is persisted via `set_vp`. -/
theorem C9_presenter_notify_amended :
    (∀ (vp : XiveVP) (tctxs : List XiveTCTX) (format vp_blk vp_idx : Nat)
        (cam_ignore : Bool) (priority logic_serv : Nat) (t : XiveTCTX),
      vp.w0 &&& VP_W0_VALID ≠ 0 →
      xive_presenter_match tctxs format vp_blk vp_idx cam_ignore logic_serv =
        (true, some (TM_QW1_OS, t)) →
      ∃ t', xive_presenter_notify (some vp) tctxs format vp_blk vp_idx cam_ignore
          priority logic_serv = .delivered TM_QW1_OS t (some t') ∧
        t'.regs (TM_QW1_OS + TM_IPB) =
          t.regs (TM_QW1_OS + TM_IPB) ||| priority_to_ipb priority ∧
        t'.regs (TM_QW1_OS + TM_PIPR) =
          ipb_to_pipr (t.regs (TM_QW1_OS + TM_IPB) ||| priority_to_ipb priority) ∧
        t'.regs (TM_QW1_OS + TM_CPPR) = t.regs (TM_QW1_OS + TM_CPPR) ∧
        t'.regs (TM_QW1_OS + TM_NSR) =
          (if ipb_to_pipr (t.regs (TM_QW1_OS + TM_IPB) ||| priority_to_ipb priority) <
              t.regs (TM_QW1_OS + TM_CPPR)
           then t.regs (TM_QW1_OS + TM_NSR) ||| TM_QW1_NSR_EO
           else t.regs (TM_QW1_OS + TM_NSR)) ∧
        t'.out =
          (if ipb_to_pipr (t.regs (TM_QW1_OS + TM_IPB) ||| priority_to_ipb priority) <
              t.regs (TM_QW1_OS + TM_CPPR)
           then true else t.out)) ∧
    (∀ (vp : XiveVP) (tctxs : List XiveTCTX) (format vp_blk vp_idx : Nat)
        (cam_ignore : Bool) (priority logic_serv : Nat)
        (m : Option (Nat × XiveTCTX)),
      vp.w0 &&& VP_W0_VALID ≠ 0 →
      xive_presenter_match tctxs format vp_blk vp_idx cam_ignore logic_serv =
        (false, m) →
      xive_presenter_notify (some vp) tctxs format vp_blk vp_idx cam_ignore
          priority logic_serv = .backlog ⟨vp.w0, ipb_update vp.w4 0 priority⟩ ∧
      ipb_update vp.w4 0 priority TM_IPB =
        vp.w4 TM_IPB ||| priority_to_ipb priority) := by
  constructor
  · intro vp tctxs format vp_blk vp_idx cam_ignore priority logic_serv t hv hm
    simp only [xive_presenter_notify, if_neg hv, hm, tctx_notify_os]
    refine ⟨_, rfl, ?_, ?_, ?_, ?_, ?_⟩ <;>
      by_cases hlt : ipb_to_pipr (t.regs 18 ||| priority_to_ipb priority) < t.regs 17 <;>
        simp [ipb_update, upd, TM_QW1_OS, TM_NSR, TM_CPPR, TM_IPB, TM_PIPR, hlt]
  · intro vp tctxs format vp_blk vp_idx cam_ignore priority logic_serv m hv hm
    refine ⟨?_, by simp [ipb_update, upd, TM_IPB, TM_PIPR]⟩
    simp only [xive_presenter_notify, if_neg hv, hm]

/-- C9 witness: the delivery rule applied at the concrete VP `vpA` and the
single matching context `tctxM` (OS CAM 0/5, CPPR 0xFF) with priority 4. -/
theorem C9_presenter_notify_witness :
    ∃ t', xive_presenter_notify (some vpA) [tctxM] 0 0 5 false 4 0 =
        .delivered TM_QW1_OS tctxM (some t') ∧
      t'.regs (TM_QW1_OS + TM_IPB) =
        tctxM.regs (TM_QW1_OS + TM_IPB) ||| priority_to_ipb 4 ∧
      t'.regs (TM_QW1_OS + TM_PIPR) =
        ipb_to_pipr (tctxM.regs (TM_QW1_OS + TM_IPB) ||| priority_to_ipb 4) ∧
      t'.regs (TM_QW1_OS + TM_CPPR) = tctxM.regs (TM_QW1_OS + TM_CPPR) ∧
      t'.regs (TM_QW1_OS + TM_NSR) =
        (if ipb_to_pipr (tctxM.regs (TM_QW1_OS + TM_IPB) ||| priority_to_ipb 4) <
            tctxM.regs (TM_QW1_OS + TM_CPPR)
         then tctxM.regs (TM_QW1_OS + TM_NSR) ||| TM_QW1_NSR_EO
         else tctxM.regs (TM_QW1_OS + TM_NSR)) ∧
      t'.out =
        (if ipb_to_pipr (tctxM.regs (TM_QW1_OS + TM_IPB) ||| priority_to_ipb 4) <
            tctxM.regs (TM_QW1_OS + TM_CPPR)
         then true else tctxM.out) :=
  C9_presenter_notify_amended.1 vpA [tctxM] 0 0 5 false 4 0 tctxM (by decide) (by rfl)

/-- Accumulating a masked OR can be pushed into the accumulated value. -/
theorem or_ite_push (c : Prop) [Decidable c] (acc x : Nat) :
    (if c then acc ||| x else acc) = acc ||| (if c then x else 0) := by
  by_cases h : c <;> simp [h]

/-- A conditional shifted value is the shifted conditional value. -/
theorem ite_shiftLeft (c : Prop) [Decidable c] (x s : Nat) :
    (if c then x <<< s else 0) = (if c then x else 0) <<< s := by
  by_cases h : c <;> simp [h]

/-- Shifting preserves a power-of-two bound. -/
theorem shiftLeft_lt_pow {x w : Nat} (s : Nat) (h : x < 2 ^ w) :
    x <<< s < 2 ^ (w + s) := by
  rw [Nat.shiftLeft_eq, Nat.pow_add]
  exact Nat.mul_lt_mul_of_lt_of_le h (Nat.le_refl _) (Nat.pow_pos (by norm_num))

/-- Prepending one byte to an assembled value keeps it bounded. -/
theorem assemble_bound {x r k : Nat} (hx : x < 2 ^ 8) (hr : r < 2 ^ k) :
    (x <<< k) ||| r < 2 ^ (8 + k) :=
  Nat.or_lt_two_pow (by simpa [Nat.add_comm] using shiftLeft_lt_pow k hx)
    (lt_of_lt_of_le hr (Nat.pow_le_pow_right (by norm_num) (by omega)))

/-- ANDing two byte-assembled words decomposes window by window. -/
theorem window_step (b m rb rm k : Nat) (hb : b < 256) (hm : m < 256)
    (hrb : rb < 2 ^ k) (hrm : rm < 2 ^ k) :
    ((b <<< k) ||| rb) &&& ((m <<< k) ||| rm) = ((b &&& m) <<< k) ||| (rb &&& rm) := by
  apply Nat.eq_of_testBit_eq
  intro i
  simp only [Nat.testBit_and, Nat.testBit_or, Nat.testBit_shiftLeft]
  by_cases hik : k ≤ i
  · have hbt : rb.testBit i = false :=
      Nat.testBit_lt_two_pow (lt_of_lt_of_le hrb (Nat.pow_le_pow_right (by norm_num) hik))
    have hdt : rm.testBit i = false :=
      Nat.testBit_lt_two_pow (lt_of_lt_of_le hrm (Nat.pow_le_pow_right (by norm_num) hik))
    simp [hik, hbt, hdt]
  · simp [hik]

/-- ANDing a byte against a full/empty byte mask selects or clears it. -/
theorem and_ite_ff {b : Nat} (hb : b < 256) (c : Prop) [Decidable c] :
    b &&& (if c then 255 else 0) = (if c then b else 0) := by
  by_cases h : c <;> simp [h]
  exact Nat.and_pow_two_sub_one_of_lt_two_pow (n := 8) hb

/-- Bounded-byte assembly with the target exponent given explicitly. -/
theorem assemble_bound' {x r k n : Nat} (hx : x < 2 ^ 8) (hr : r < 2 ^ k)
    (hn : 8 + k = n) : (x <<< k) ||| r < 2 ^ n :=
  hn ▸ assemble_bound hx hr

/-- Accumulating a masked OR with flipped branches. -/
theorem or_ite_push' (c : Prop) [Decidable c] (acc x : Nat) :
    (if c then acc else acc ||| x) = acc ||| (if c then 0 else x) := by
  by_cases h : c <;> simp [h]

/-- A flipped conditional shifted value is the shifted conditional value. -/
theorem ite_shiftLeft' (c : Prop) [Decidable c] (x s : Nat) :
    (if c then 0 else x <<< s) = (if c then 0 else x) <<< s := by
  by_cases h : c <;> simp [h]

/-- ANDing a byte against a flipped full/empty byte mask. -/
theorem and_ite_ff' {b : Nat} (hb : b < 256) (c : Prop) [Decidable c] :
    b &&& (if c then 0 else 255) = (if c then 0 else b) := by
  by_cases h : c <;> simp [h]
  exact Nat.and_pow_two_sub_one_of_lt_two_pow (n := 8) hb

/-- A conditional byte mask is bounded by one byte. -/
theorem ite_byte_lt (c : Prop) [Decidable c] : (if c then (0 : Nat) else 255) < 2 ^ 8 := by
  split <;> norm_num

set_option maxHeartbeats 2000000 in
/-- C10: a raw TIMA read of fewer than 4 bytes, or whose access map yields an
all-zero mask, or targeting the QW0_USER ring, is rejected and returns
all-ones; a permitted 4- or 8-byte read returns the register bytes masked
byte-by-byte by the read-access map of the accessing page. -/
theorem C10_raw_read_filtering (tctx : XiveTCTX) (offset size : Nat)
    (hb : ∀ i, tctx.regs i < 256) :
    ((size < 4 ∨ xive_tm_mask offset size false = 0 ∨
        offset &&& 0x30 = TM_QW0_USER) →
      xive_tm_raw_read tctx offset size = 0xFFFFFFFFFFFFFFFF) ∧
    ((size = 4 ∨ size = 8) → xive_tm_mask offset size false ≠ 0 →
      offset &&& 0x30 ≠ TM_QW0_USER →
      xive_tm_raw_read tctx offset size = xive_tm_filtered_read tctx offset size) := by
  constructor
  · intro h
    simp only [xive_tm_raw_read]
    rw [if_pos h]
  · intro hs hm hr
    have hnrej : ¬(size < 4 ∨ xive_tm_mask offset size false = 0 ∨
        offset &&& 0x30 = TM_QW0_USER) := by
      rintro (h | h | h)
      · rcases hs with rfl | rfl <;> omega
      · exact hm h
      · exact hr h
    simp only [xive_tm_raw_read]
    rw [if_neg hnrej]
    rcases hs with rfl | rfl
    · simp only [xive_tm_mask, xive_tm_filtered_read]
      simp only [List.range_succ, List.range_zero, List.foldl_append,
                 List.foldl_cons, List.foldl_nil, List.nil_append]
      norm_num
      simp only [or_ite_push, or_ite_push', Nat.zero_or]
      simp only [ite_shiftLeft, ite_shiftLeft', Nat.shiftLeft_zero]
      simp only [Nat.or_assoc]
      set ro := offset &&& 63 with hro
      set V := xive_tm_views ((offset >>> TM_SHIFT) &&& 3) with hV
      have h3' : tctx.regs (ro + 3) < 2 ^ 8 := hb _
      have h23 : tctx.regs (ro + 2) <<< 8 ||| tctx.regs (ro + 3) < 2 ^ 16 :=
        assemble_bound' (hb _) h3' (by norm_num)
      have h123 : tctx.regs (ro + 1) <<< 16 |||
          (tctx.regs (ro + 2) <<< 8 ||| tctx.regs (ro + 3)) < 2 ^ 24 :=
        assemble_bound' (hb _) h23 (by norm_num)
      have m3' : (if V[ro + 3]?.getD 0 &&& 2 = 0 then (0 : Nat) else 255) < 2 ^ 8 := by
        split <;> norm_num
      have m23 : (if V[ro + 2]?.getD 0 &&& 2 = 0 then (0 : Nat) else 255) <<< 8 |||
          (if V[ro + 3]?.getD 0 &&& 2 = 0 then (0 : Nat) else 255) < 2 ^ 16 :=
        assemble_bound' (ite_byte_lt _) m3' (by norm_num)
      have m123 : (if V[ro + 1]?.getD 0 &&& 2 = 0 then (0 : Nat) else 255) <<< 16 |||
          ((if V[ro + 2]?.getD 0 &&& 2 = 0 then (0 : Nat) else 255) <<< 8 |||
           (if V[ro + 3]?.getD 0 &&& 2 = 0 then (0 : Nat) else 255)) < 2 ^ 24 :=
        assemble_bound' (ite_byte_lt _) m23 (by norm_num)
      rw [window_step _ _ _ _ _ (hb ro) (ite_byte_lt _) h123 m123,
          window_step _ _ _ _ _ (hb (ro + 1)) (ite_byte_lt _) h23 m23,
          window_step _ _ _ _ _ (hb (ro + 2)) (ite_byte_lt _) h3' m3',
          and_ite_ff' (hb ro), and_ite_ff' (hb (ro + 1)),
          and_ite_ff' (hb (ro + 2)), and_ite_ff' (hb (ro + 3))]
    · simp only [xive_tm_mask, xive_tm_filtered_read]
      simp only [List.range_succ, List.range_zero, List.foldl_append,
                 List.foldl_cons, List.foldl_nil, List.nil_append]
      norm_num
      simp only [or_ite_push, or_ite_push', Nat.zero_or]
      simp only [ite_shiftLeft, ite_shiftLeft', Nat.shiftLeft_zero]
      simp only [Nat.or_assoc]
      set ro := offset &&& 63 with hro
      set V := xive_tm_views ((offset >>> TM_SHIFT) &&& 3) with hV
      have h7' : tctx.regs (ro + 7) < 2 ^ 8 := hb _
      have h67 : tctx.regs (ro + 6) <<< 8 ||| tctx.regs (ro + 7) < 2 ^ 16 :=
        assemble_bound' (hb _) h7' (by norm_num)
      have h567 : tctx.regs (ro + 5) <<< 16 |||
          (tctx.regs (ro + 6) <<< 8 ||| tctx.regs (ro + 7)) < 2 ^ 24 :=
        assemble_bound' (hb _) h67 (by norm_num)
      have h4567 : tctx.regs (ro + 4) <<< 24 |||
          (tctx.regs (ro + 5) <<< 16 |||
           (tctx.regs (ro + 6) <<< 8 ||| tctx.regs (ro + 7))) < 2 ^ 32 :=
        assemble_bound' (hb _) h567 (by norm_num)
      have h34567 : tctx.regs (ro + 3) <<< 32 |||
          (tctx.regs (ro + 4) <<< 24 |||
           (tctx.regs (ro + 5) <<< 16 |||
            (tctx.regs (ro + 6) <<< 8 ||| tctx.regs (ro + 7)))) < 2 ^ 40 :=
        assemble_bound' (hb _) h4567 (by norm_num)
      have h234567 : tctx.regs (ro + 2) <<< 40 |||
          (tctx.regs (ro + 3) <<< 32 |||
           (tctx.regs (ro + 4) <<< 24 |||
            (tctx.regs (ro + 5) <<< 16 |||
             (tctx.regs (ro + 6) <<< 8 ||| tctx.regs (ro + 7))))) < 2 ^ 48 :=
        assemble_bound' (hb _) h34567 (by norm_num)
      have h1234567 : tctx.regs (ro + 1) <<< 48 |||
          (tctx.regs (ro + 2) <<< 40 |||
           (tctx.regs (ro + 3) <<< 32 |||
            (tctx.regs (ro + 4) <<< 24 |||
             (tctx.regs (ro + 5) <<< 16 |||
              (tctx.regs (ro + 6) <<< 8 ||| tctx.regs (ro + 7)))))) < 2 ^ 56 :=
        assemble_bound' (hb _) h234567 (by norm_num)
      have m7' : (if V[ro + 7]?.getD 0 &&& 2 = 0 then (0 : Nat) else 255) < 2 ^ 8 := by
        split <;> norm_num
      have m67 : (if V[ro + 6]?.getD 0 &&& 2 = 0 then (0 : Nat) else 255) <<< 8 |||
          (if V[ro + 7]?.getD 0 &&& 2 = 0 then (0 : Nat) else 255) < 2 ^ 16 :=
        assemble_bound' (ite_byte_lt _) m7' (by norm_num)
      have m567 : (if V[ro + 5]?.getD 0 &&& 2 = 0 then (0 : Nat) else 255) <<< 16 |||
          ((if V[ro + 6]?.getD 0 &&& 2 = 0 then (0 : Nat) else 255) <<< 8 |||
           (if V[ro + 7]?.getD 0 &&& 2 = 0 then (0 : Nat) else 255)) < 2 ^ 24 :=
        assemble_bound' (ite_byte_lt _) m67 (by norm_num)
      have m4567 : (if V[ro + 4]?.getD 0 &&& 2 = 0 then (0 : Nat) else 255) <<< 24 |||
          ((if V[ro + 5]?.getD 0 &&& 2 = 0 then (0 : Nat) else 255) <<< 16 |||
           ((if V[ro + 6]?.getD 0 &&& 2 = 0 then (0 : Nat) else 255) <<< 8 |||
            (if V[ro + 7]?.getD 0 &&& 2 = 0 then (0 : Nat) else 255))) < 2 ^ 32 :=
        assemble_bound' (ite_byte_lt _) m567 (by norm_num)
      have m34567 : (if V[ro + 3]?.getD 0 &&& 2 = 0 then (0 : Nat) else 255) <<< 32 |||
          ((if V[ro + 4]?.getD 0 &&& 2 = 0 then (0 : Nat) else 255) <<< 24 |||
           ((if V[ro + 5]?.getD 0 &&& 2 = 0 then (0 : Nat) else 255) <<< 16 |||
            ((if V[ro + 6]?.getD 0 &&& 2 = 0 then (0 : Nat) else 255) <<< 8 |||
             (if V[ro + 7]?.getD 0 &&& 2 = 0 then (0 : Nat) else 255)))) < 2 ^ 40 :=
        assemble_bound' (ite_byte_lt _) m4567 (by norm_num)
      have m234567 : (if V[ro + 2]?.getD 0 &&& 2 = 0 then (0 : Nat) else 255) <<< 40 |||
          ((if V[ro + 3]?.getD 0 &&& 2 = 0 then (0 : Nat) else 255) <<< 32 |||
           ((if V[ro + 4]?.getD 0 &&& 2 = 0 then (0 : Nat) else 255) <<< 24 |||
            ((if V[ro + 5]?.getD 0 &&& 2 = 0 then (0 : Nat) else 255) <<< 16 |||
             ((if V[ro + 6]?.getD 0 &&& 2 = 0 then (0 : Nat) else 255) <<< 8 |||
              (if V[ro + 7]?.getD 0 &&& 2 = 0 then (0 : Nat) else 255))))) < 2 ^ 48 :=
        assemble_bound' (ite_byte_lt _) m34567 (by norm_num)
      have m1234567 : (if V[ro + 1]?.getD 0 &&& 2 = 0 then (0 : Nat) else 255) <<< 48 |||
          ((if V[ro + 2]?.getD 0 &&& 2 = 0 then (0 : Nat) else 255) <<< 40 |||
           ((if V[ro + 3]?.getD 0 &&& 2 = 0 then (0 : Nat) else 255) <<< 32 |||
            ((if V[ro + 4]?.getD 0 &&& 2 = 0 then (0 : Nat) else 255) <<< 24 |||
             ((if V[ro + 5]?.getD 0 &&& 2 = 0 then (0 : Nat) else 255) <<< 16 |||
              ((if V[ro + 6]?.getD 0 &&& 2 = 0 then (0 : Nat) else 255) <<< 8 |||
               (if V[ro + 7]?.getD 0 &&& 2 = 0 then (0 : Nat) else 255)))))) < 2 ^ 56 :=
        assemble_bound' (ite_byte_lt _) m234567 (by norm_num)
      rw [window_step _ _ _ _ _ (hb ro) (ite_byte_lt _) h1234567 m1234567,
          window_step _ _ _ _ _ (hb (ro + 1)) (ite_byte_lt _) h234567 m234567,
          window_step _ _ _ _ _ (hb (ro + 2)) (ite_byte_lt _) h34567 m34567,
          window_step _ _ _ _ _ (hb (ro + 3)) (ite_byte_lt _) h4567 m4567,
          window_step _ _ _ _ _ (hb (ro + 4)) (ite_byte_lt _) h567 m567,
          window_step _ _ _ _ _ (hb (ro + 5)) (ite_byte_lt _) h67 m67,
          window_step _ _ _ _ _ (hb (ro + 6)) (ite_byte_lt _) h7' m7',
          and_ite_ff' (hb ro), and_ite_ff' (hb (ro + 1)),
          and_ite_ff' (hb (ro + 2)), and_ite_ff' (hb (ro + 3)), and_ite_ff' (hb (ro + 4)),
          and_ite_ff' (hb (ro + 5)), and_ite_ff' (hb (ro + 6)), and_ite_ff' (hb (ro + 7))]

/-- C10 witness: the byte-filtering law applied to a permitted 4-byte read of
the OS ring (offset 0x10) from the HW page on the concrete context `tctxM`. -/
theorem C10_raw_read_witness :
    xive_tm_raw_read tctxM 0x10 4 = xive_tm_filtered_read tctxM 0x10 4 := by
  have hb : ∀ i, tctxM.regs i < 256 := by
    intro i
    simp only [tctxM]
    split_ifs <;> norm_num
  exact (C10_raw_read_filtering tctxM 0x10 4 hb).2 (Or.inl rfl) (by decide) (by decide)
